import Mathlib

/-!
Verification development for the window hooks of the `pluely` repository
(`src/hooks/useWindow.ts`).  The TypeScript source is shallowly embedded:

* `resizeWindow` (the `useCallback` body) becomes a pure transition on the
  remembered expansion state `Option Bool` (the `currentExpandedRef`, which
  starts at `null`), parametrised by the DOM predicate `isAnyPopoverOpen()`
  and by whether the host `invoke("set_window_height", ...)` call succeeds.
  The list of issued host commands (requested heights) is returned alongside
  the new state; the `catch` clause means the function always returns
  normally, so the embedding is total.

* the `useEffect` wiring (drag handling, mutation-observer debounce and the
  cleanup function) becomes an event-driven state machine over discrete
  millisecond time, with explicit timer records for the single tracked
  debounce slot and for the untracked 100 ms drag-release timeouts.

* `useWindowFocus` becomes a two-event lifecycle machine (asynchronous
  subscribe resolution vs. effect cleanup) and a pure dispatch function for
  `handleFocusChange`.
-/

/-- One invocation of `resizeWindow(expanded)` together with the environment
it observes: whether `isAnyPopoverOpen()` returns true at call time, and
whether the awaited `invoke("set_window_height", ...)` succeeds. -/
structure ResizeCall where
  expanded : Bool
  popoverOpen : Bool
  hostOk : Bool
  deriving DecidableEq, Repr, Fintype

/-- Embedding of the body of `resizeWindow` (src/hooks/useWindow.ts lines
17-41).  `s` is `currentExpandedRef.current : boolean | null`.  Returns the
updated ref value and the list of heights passed to `set_window_height`
(at most one).  The `try`/`catch` swallows a host failure, so on failure the
ref is left unchanged while the command was still issued. -/
def resizeWindow (s : Option Bool) (c : ResizeCall) : Option Bool × List Nat :=
  if !c.expanded && c.popoverOpen then
    (s, [])
  else if s = some c.expanded then
    (s, [])
  else
    let newHeight := if c.expanded then 600 else 54
    if c.hostOk then (some c.expanded, [newHeight]) else (s, [newHeight])

/-- Run a sequence of `resizeWindow` calls, accumulating all issued host
commands. -/
def runResize (s : Option Bool) : List ResizeCall → Option Bool × List Nat
  | [] => (s, [])
  | c :: rest =>
    let r := resizeWindow s c
    let r2 := runResize r.1 rest
    (r2.1, r.2 ++ r2.2)

/-- Per-call trace of a sequence of `resizeWindow` calls: for each call, the
ref value seen on entry, the call itself, and the host commands it issued. -/
def resizeTrace (s : Option Bool) : List ResizeCall → List (Option Bool × ResizeCall × List Nat)
  | [] => []
  | c :: rest => (s, c, (resizeWindow s c).2) :: resizeTrace (resizeWindow s c).1 rest

/-- A scheduled `setTimeout` callback: its identifier and the absolute time
(milliseconds) at which it is due to fire. -/
structure Timer where
  id : Nat
  fireAt : Nat
  deriving DecidableEq, Repr

/-- State of the `useWindowResize` effect (src/hooks/useWindow.ts lines
43-102) together with the host-visible effects it has produced.

`mounted` records whether the document listeners and the mutation observer
are still attached (the cleanup function removes all of them at once).
`debounce` is the single tracked `debounceTimeout` slot.  `dragTimers` are
the anonymous 100 ms timeouts created inside `handleMouseUp`, for which the
source keeps no handle.  `lastExpanded` is `currentExpandedRef.current`.
`hostCalls` lists the `(time, height)` of each `set_window_height` command;
`evals` lists the times at which a collapse-evaluation callback (the body of
a fired timeout) ran. -/
structure WState where
  mounted : Bool
  isDragging : Bool
  debounce : Option Timer
  dragTimers : List Timer
  nextId : Nat
  lastExpanded : Option Bool
  hostCalls : List (Nat × Nat)
  evals : List Nat
  deriving DecidableEq, Repr

/-- External events driving the `useWindowResize` effect.  `fire t i p ok`
is the event loop running the timeout with id `i` at its due time `t`, with
`isAnyPopoverOpen()` returning `p` and the host resize call succeeding iff
`ok` at that moment. -/
inductive WEv where
  | mouseDown (t : Nat) (inDragRegion : Bool)
  | mouseUp (t : Nat)
  | mutation (t : Nat)
  | unmount (t : Nat)
  | fire (t : Nat) (i : Nat) (popoverOpen : Bool) (hostOk : Bool)
  deriving DecidableEq, Repr

/-- The body shared by both timeout callbacks (lines 61-64 and 76-80):
`if (!isAnyPopoverOpen()) resizeWindow(false)`.  Records that an evaluation
ran and threads the issued host commands into the state. -/
def collapseEval (s : WState) (t : Nat) (popoverOpen hostOk : Bool) : WState :=
  let s1 := { s with evals := s.evals ++ [t] }
  if popoverOpen then s1
  else
    let r := resizeWindow s1.lastExpanded ⟨false, popoverOpen, hostOk⟩
    { s1 with lastExpanded := r.1,
              hostCalls := s1.hostCalls ++ r.2.map (fun h => (t, h)) }

/-- One step of the `useWindowResize` event machine.

* `mouseDown`: `handleMouseDown` sets `isDragging` when the target is inside
  a `data-tauri-drag-region` element; the listener only runs while attached.
* `mouseUp`: `handleMouseUp` clears the flag and schedules an anonymous
  100 ms timeout (no handle is stored).
* `mutation`: the observer callback clears any pending `debounceTimeout`
  and schedules a fresh 150 ms one; the observer only runs while connected.
* `unmount`: the cleanup removes both listeners, disconnects the observer
  and clears `debounceTimeout` — and nothing else.
* `fire`: a timeout that is still scheduled runs at its due time, whether or
  not the component is still mounted (JavaScript timers are not tied to the
  effect unless explicitly cleared). -/
def wstep (s : WState) : WEv → WState
  | .mouseDown _ inDragRegion =>
    if s.mounted && inDragRegion then { s with isDragging := true } else s
  | .mouseUp t =>
    if s.mounted && s.isDragging then
      { s with isDragging := false,
               dragTimers := s.dragTimers ++ [⟨s.nextId, t + 100⟩],
               nextId := s.nextId + 1 }
    else s
  | .mutation t =>
    if s.mounted then
      { s with debounce := some ⟨s.nextId, t + 150⟩, nextId := s.nextId + 1 }
    else s
  | .unmount _ =>
    if s.mounted then { s with mounted := false, debounce := none } else s
  | .fire t i popoverOpen hostOk =>
    if s.debounce.any (fun tm => tm.id == i && tm.fireAt == t) then
      collapseEval { s with debounce := none } t popoverOpen hostOk
    else if s.dragTimers.any (fun tm => tm.id == i && tm.fireAt == t) then
      collapseEval { s with dragTimers := s.dragTimers.filter (fun tm => tm.id != i) }
        t popoverOpen hostOk
    else s

/-- Initial state right after the effect body ran: listeners attached,
observer connected, no pending timers, `currentExpandedRef.current = null`. -/
def initW : WState := ⟨true, false, none, [], 0, none, [], []⟩

/-- Run the `useWindowResize` event machine over an event list. -/
def runW (es : List WEv) : WState := es.foldl wstep initW

/-- The options object passed to `observer.observe(document.body, ...)`
(lines 85-90). -/
structure MutationObserverInit where
  childList : Bool
  subtree : Bool
  attributes : Bool
  attributeFilter : List String
  deriving DecidableEq, Repr

/-- The exact configuration used by the source: `childList: true`,
`subtree: false`, `attributes: true`, `attributeFilter: ["data-state"]`. -/
def bodyObserveInit : MutationObserverInit :=
  ⟨true, false, true, ["data-state"]⟩

/-- A DOM mutation, classified by whether it happens at the observed target
node itself (`atTarget = true`) or at a proper descendant. -/
inductive DomMutation where
  | childListAt (atTarget : Bool)
  | attributeAt (atTarget : Bool) (name : String)
  deriving DecidableEq, Repr

/-- WHATWG DOM `MutationObserver` delivery semantics for an observe call:
a mutation is delivered iff its kind is requested and the mutated node is
the target, or `subtree` is set (the `subtree` option extends *every*
requested kind to descendants; with `subtree: false` both child-list and
attribute mutations are reported only for the target node itself), with
attribute mutations further restricted by `attributeFilter` when present. -/
def observerDelivers (cfg : MutationObserverInit) : DomMutation → Bool
  | .childListAt atTarget => cfg.childList && (atTarget || cfg.subtree)
  | .attributeAt atTarget name =>
    cfg.attributes && (atTarget || cfg.subtree) &&
      (cfg.attributeFilter.isEmpty || cfg.attributeFilter.contains name)

/-- State of one `useWindowFocus` effect instance (lines 128-152):
`unlisten` records whether the `unlisten` variable holds a function
(non-null), `subscribed` whether the host focus subscription was
established, `unsubscribed` whether the unlisten function was ever invoked,
`cleanedUp` whether the effect cleanup has run. -/
structure FocusHookState where
  unlisten : Bool
  subscribed : Bool
  unsubscribed : Bool
  cleanedUp : Bool
  deriving DecidableEq, Repr

/-- The two asynchronous completions racing in `useWindowFocus`:
the `await window.onFocusChanged(...)` resolution inside
`setupFocusListener`, and the effect cleanup. -/
inductive FocusEv where
  | subscribeResolves
  | cleanup
  deriving DecidableEq, Repr

/-- One step of the `useWindowFocus` lifecycle.  When the subscribe call
resolves, the subscription exists and `unlisten` is assigned — this happens
even if the cleanup already ran, because nothing in the source cancels or
observes the pending promise.  The cleanup invokes `unlisten` only if it is
non-null at that moment. -/
def focusStep (s : FocusHookState) : FocusEv → FocusHookState
  | .subscribeResolves => { s with unlisten := true, subscribed := true }
  | .cleanup =>
    if s.unlisten then { s with cleanedUp := true, unsubscribed := true }
    else { s with cleanedUp := true }

/-- Initial `useWindowFocus` state: `let unlisten = null`, nothing
established yet. -/
def initFocus : FocusHookState := ⟨false, false, false, false⟩

/-- Run the focus-hook lifecycle over an ordering of its events. -/
def runFocus (es : List FocusEv) : FocusHookState := es.foldl focusStep initFocus

/-- Which callback a `handleFocusChange(focused)` dispatch invokes
(lines 117-126): `gained` / `lost` when the corresponding optional callback
is present, `none` otherwise. -/
inductive FocusBranch where
  | gained
  | lost
  | none
  deriving DecidableEq, Repr

/-- Embedding of `handleFocusChange`: `hasGained` / `hasLost` state whether
`onFocusGained` / `onFocusLost` were provided. -/
def handleFocusChange (focused hasGained hasLost : Bool) : FocusBranch :=
  if focused && hasGained then .gained
  else if !focused && hasLost then .lost
  else .none

/-- Timing model of the single `debounceTimeout` slot (lines 69-81),
processed along a time-ordered list of mutation-batch arrival times.  The
state is `(pending fire time, times at which the callback already fired)`.
When a mutation batch arrives at time `t`: if the pending timeout was due at
or before `t` the event loop has already run it (it fired); otherwise the
callback's `clearTimeout(debounceTimeout)` cancels it.  Either way a fresh
timeout due at `t + 150` is installed. -/
def debounceStep (p : Option Nat × List Nat) (t : Nat) : Option Nat × List Nat :=
  match p.1 with
  | some f => if f ≤ t then (some (t + 150), p.2 ++ [f]) else (some (t + 150), p.2)
  | none => (some (t + 150), p.2)

/-- All times at which the debounce callback fires, for a time-ordered list
of mutation-batch times followed by quiescence (the final pending timeout,
never cancelled, eventually fires). -/
def debounceFires (ts : List Nat) : List Nat :=
  match ts.foldl debounceStep (none, []) with
  | (some f, fired) => fired ++ [f]
  | (none, fired) => fired

/-- Helper for C1: a `resizeWindow` call that issued a command cannot have
seen a ref value equal to the requested state (the equality guard on lines
26-28 would have returned first). -/
theorem resizeWindow_cmds_ne_nil :
    ∀ (s : Option Bool) (c : ResizeCall),
      (resizeWindow s c).2 ≠ [] → s ≠ some c.expanded := by decide

/-- C1: for every sequence of `resizeWindow` calls, a host resize command is
issued only when the requested expansion state differs from the last
successfully applied state (the ref value seen on entry); in particular,
from any state other than already-expanded, calling `resizeWindow(true)`
twice in a row with a succeeding host issues exactly one host command — the
second call is a no-op. -/
theorem resizeWindow_command_only_on_state_change :
    (∀ (s : Option Bool) (cs : List ResizeCall) (x : Option Bool × ResizeCall × List Nat),
        x ∈ resizeTrace s cs → x.2.2 ≠ [] → x.1 ≠ some x.2.1.expanded) ∧
    (∀ (s : Option Bool) (p1 p2 : Bool), s ≠ some true →
        (runResize s [⟨true, p1, true⟩, ⟨true, p2, true⟩]).2.length = 1) := by
  constructor
  · intro s cs
    induction cs generalizing s with
    | nil => intro x hx; simp [resizeTrace] at hx
    | cons c rest ih =>
      intro x hx
      simp only [resizeTrace, List.mem_cons] at hx
      rcases hx with h | h
      · subst h
        exact resizeWindow_cmds_ne_nil s c
      · exact ih _ _ h
  · intro s p1 p2 hs
    rcases s with _ | b
    · revert p1 p2; decide
    · rcases b with _ | _
      · revert p1 p2; decide
      · exact absurd rfl hs

/-- Witness for C1 at concrete inputs: the head entry of a singleton trace
issued a command and indeed differed from the entry state, and the
double-`resizeWindow(true)` run from the initial `null` state issues exactly
one command. -/
theorem resizeWindow_command_only_on_state_change_witness :
    (((none : Option Bool), (⟨true, false, true⟩ : ResizeCall), ([600] : List Nat)) ∈
        resizeTrace none [⟨true, false, true⟩] ∧
      ([600] : List Nat) ≠ [] ∧
      (none : Option Bool) ≠ some true ∧
      (runResize none [⟨true, true, true⟩, ⟨true, false, true⟩]).2.length = 1) := by
  refine ⟨by decide, by decide, ?_, ?_⟩
  · exact resizeWindow_command_only_on_state_change.1 none [⟨true, false, true⟩]
      (none, ⟨true, false, true⟩, [600]) (by decide) (by decide)
  · exact resizeWindow_command_only_on_state_change.2 none true false (by decide)

/-- C2: `resizeWindow(false)` while a popover is open returns without
issuing any host command and without changing the remembered state, for
every remembered state and every host behaviour. -/
theorem resizeWindow_collapse_noop_while_popover :
    ∀ (s : Option Bool) (ok : Bool), resizeWindow s ⟨false, true, ok⟩ = (s, []) := by
  decide

/-- C3: when both guards pass (the call expands, or no popover is open; and
the remembered state differs from the request) and the host succeeds,
`resizeWindow` issues exactly one `set_window_height` command — 600 when
expanding, 54 when collapsing — and the remembered state becomes the
requested value. -/
theorem resizeWindow_past_guards_sets_height :
    ∀ (s : Option Bool) (c : ResizeCall),
      (c.expanded || !c.popoverOpen) = true → s ≠ some c.expanded → c.hostOk = true →
      resizeWindow s c = (some c.expanded, [if c.expanded then 600 else 54]) := by
  decide

/-- Witness for C3: from the initial `null` state, an expand request with no
popover and a succeeding host yields height 600 and remembered state
`some true`. -/
theorem resizeWindow_past_guards_sets_height_witness :
    ((true || !false) = true ∧ (none : Option Bool) ≠ some true ∧ true = true ∧
      resizeWindow none ⟨true, false, true⟩ = (some true, [600])) :=
  ⟨by decide, by decide, rfl,
    resizeWindow_past_guards_sets_height none ⟨true, false, true⟩ (by decide) (by decide) rfl⟩

/-- C4: when the host command fails, `resizeWindow` still returns normally
(the embedding is a total function — the `catch` swallows the error), the
remembered state is unchanged, exactly one command was attempted, and a
subsequent call with the same target state attempts the host command
again. -/
theorem resizeWindow_failure_keeps_state_and_retries :
    ∀ (s : Option Bool) (c : ResizeCall),
      (c.expanded || !c.popoverOpen) = true → s ≠ some c.expanded → c.hostOk = false →
      (resizeWindow s c).1 = s ∧ (resizeWindow s c).2.length = 1 ∧
      (resizeWindow (resizeWindow s c).1 ⟨c.expanded, c.popoverOpen, true⟩).2.length = 1 := by
  decide

/-- Witness for C4: a failing expand from the initial state keeps the ref at
`null`, issued one attempt, and the retry issues another command. -/
theorem resizeWindow_failure_keeps_state_and_retries_witness :
    ((true || !false) = true ∧ (none : Option Bool) ≠ some true ∧
      (⟨true, false, false⟩ : ResizeCall).hostOk = false ∧
      ((resizeWindow none ⟨true, false, false⟩).1 = none ∧
        (resizeWindow none ⟨true, false, false⟩).2.length = 1 ∧
        (resizeWindow (resizeWindow none ⟨true, false, false⟩).1
            ⟨true, false, true⟩).2.length = 1)) :=
  ⟨by decide, by decide, rfl,
    resizeWindow_failure_keeps_state_and_retries none ⟨true, false, false⟩
      (by decide) (by decide) rfl⟩

/-- C10: the remembered state starts at `null`, which differs from both
booleans, so the first `resizeWindow` call after mount issues a host command
for either target state whenever the overlay guard does not apply; the state
is then updated only if the host succeeded. -/
theorem resizeWindow_first_call_always_issues :
    ∀ (e pop ok : Bool), (e || !pop) = true →
      resizeWindow none ⟨e, pop, ok⟩ =
        (if ok then some e else none, [if e then 600 else 54]) := by
  decide

/-- Witness for C10: the first collapse request with no popover issues the
height-54 command. -/
theorem resizeWindow_first_call_always_issues_witness :
    ((false || !false) = true ∧
      resizeWindow none ⟨false, false, true⟩ = (some false, [54])) :=
  ⟨by decide, resizeWindow_first_call_always_issues false false true (by decide)⟩

/-- C9: `handleFocusChange` invokes exactly the branch matching the payload:
`true` invokes `onFocusGained` when provided (never `onFocusLost`), `false`
invokes `onFocusLost` when provided (never `onFocusGained`), and when the
matching callback is absent nothing is invoked (the dispatch still returns
normally, so no error occurs). -/
theorem handleFocusChange_exactly_one_branch :
    ∀ (g l : Bool),
      handleFocusChange true g l = (if g then .gained else .none) ∧
      handleFocusChange false g l = (if l then .lost else .none) := by
  decide

/-- C5 (code evaluated at the failing ordering): when the effect cleanup
runs before the asynchronous `onFocusChanged` subscribe call resolves, the
subscription is nevertheless established afterwards and the unlisten
function is never invoked — the subscription leaks, because the source has
no latch: the cleanup tests `unlisten` once, while it is still `null`. -/
theorem useWindowFocus_leaks_on_early_cleanup :
    (runFocus [.cleanup, .subscribeResolves]).cleanedUp = true ∧
    (runFocus [.cleanup, .subscribeResolves]).subscribed = true ∧
    (runFocus [.cleanup, .subscribeResolves]).unsubscribed = false ∧
    (runFocus [.subscribeResolves, .cleanup]).unsubscribed = true := by
  decide

/-- C6 (code evaluated at the failing trace): a drag release schedules a
100 ms timeout for which no handle is kept; unmounting at t = 50 removes the
listeners and clears the tracked debounce slot but leaves that timeout
pending, and at t = 100 it fires and issues a `set_window_height 54` host
call after teardown. -/
theorem drag_timer_fires_after_unmount :
    (runW [.mouseDown 0 true, .mouseUp 0, .unmount 50]).mounted = false ∧
    (runW [.mouseDown 0 true, .mouseUp 0, .unmount 50]).hostCalls = [] ∧
    (runW [.mouseDown 0 true, .mouseUp 0, .unmount 50]).dragTimers = [⟨0, 100⟩] ∧
    (runW [.mouseDown 0 true, .mouseUp 0, .unmount 50,
        .fire 100 0 false true]).hostCalls = [(100, 54)] := by
  decide

/-- Counterexample for C7: with the source's observe options
(`subtree: false`), a `data-state` attribute change on a node other than the
observed root container is not delivered, although the claim says a popover
attribute toggle anywhere in the document triggers the observer. -/
theorem observer_misses_descendant_attribute :
    bodyObserveInit.subtree = false ∧
    observerDelivers bodyObserveInit (.attributeAt false "data-state") = false := by
  decide

/-- C7 amended: with the source's observe options, child-list mutations are
delivered exactly when they occur at the root container itself (direct
children), and an attribute mutation is delivered exactly when it occurs at
the root container itself and its name is `data-state` — `subtree: false`
applies to attribute observation as well, so descendant toggles are not
observed. -/
theorem observerDelivers_target_only :
    ∀ (atTarget : Bool) (name : String),
      observerDelivers bodyObserveInit (.childListAt atTarget) = atTarget ∧
      (observerDelivers bodyObserveInit (.attributeAt atTarget name) = true ↔
        atTarget = true ∧ name = "data-state") := by
  intro atTarget name
  constructor
  · cases atTarget <;> rfl
  · simp [observerDelivers, bodyObserveInit, List.contains, and_comm]

/-- Witness for C7 amended: a `data-state` toggle at the root container is
delivered. -/
theorem observerDelivers_target_only_witness :
    observerDelivers bodyObserveInit (.attributeAt true "data-state") = true :=
  (observerDelivers_target_only true "data-state").2.mpr ⟨rfl, rfl⟩

/-- Counterexample for C8: a second drag release at t = 50 does not cancel
the pending 100 ms timeout scheduled by the release at t = 0 — both drag
timers stay pending, and both fire during the single quiescent period after
t = 50, giving two collapse evaluations. -/
theorem drag_timers_not_cancelled_by_new_events :
    (runW [.mouseDown 0 true, .mouseUp 0, .mouseDown 20 true, .mouseUp 50]).dragTimers
        = [⟨0, 100⟩, ⟨1, 150⟩] ∧
    (runW [.mouseDown 0 true, .mouseUp 0, .mouseDown 20 true, .mouseUp 50,
        .fire 100 0 false true, .fire 150 1 false true]).evals = [100, 150] := by
  decide

/-- Helper for C8 amended: folding the debounce step over a burst (each
mutation strictly later than the previous but before the pending timeout's
due time) never fires and leaves exactly the last mutation's timeout
pending. -/
theorem debounce_burst_aux :
    ∀ (ts : List Nat) (t : Nat) (acc : List Nat),
      List.Chain (fun a b => a < b ∧ b < a + 150) t ts →
      ts.foldl debounceStep (some (t + 150), acc)
        = (some ((t :: ts).getLast (List.cons_ne_nil t ts) + 150), acc) := by
  intro ts
  induction ts with
  | nil => intro t acc _; simp [List.getLast]
  | cons u rest ih =>
    intro t acc hch
    rw [List.chain_cons] at hch
    obtain ⟨⟨_, h2⟩, hch2⟩ := hch
    have hstep : debounceStep (some (t + 150), acc) u = (some (u + 150), acc) := by
      simp [debounceStep, Nat.not_le.mpr h2]
    rw [List.foldl_cons, hstep, ih u acc hch2]
    simp [List.getLast_cons]

/-- C8 amended: the mutation-observer debounce slot is cancel-and-replace,
so for any burst of N ≥ 2 (indeed N ≥ 1) mutation batches each arriving
within 150 ms of the previous one, exactly one collapse evaluation fires,
timed 150 ms after the last batch of the burst.  (The 100 ms drag-release
timeouts are outside this slot and are not cancelled by new events.) -/
theorem mutation_burst_single_eval :
    ∀ (t : Nat) (ts : List Nat),
      List.Chain (fun a b => a < b ∧ b < a + 150) t ts →
      debounceFires (t :: ts) = [(t :: ts).getLast (List.cons_ne_nil t ts) + 150] := by
  intro t ts hch
  unfold debounceFires
  rw [List.foldl_cons]
  have h0 : debounceStep (none, []) t = (some (t + 150), []) := rfl
  rw [h0, debounce_burst_aux ts t [] hch]
  rfl

/-- The burst hypothesis of `mutation_burst_single_eval` at the witness
inputs, proved once so the witness can discharge it. -/
theorem burst_chain_0_100_200 :
    List.Chain (fun a b => a < b ∧ b < a + 150) 0 [100, 200] := by
  norm_num [List.chain_cons]

/-- Witness for C8 amended: three mutation batches at 0, 100, 200 ms (each
within 150 ms of the previous) yield a single evaluation at 350 ms. -/
theorem mutation_burst_single_eval_witness :
    (List.Chain (fun a b => a < b ∧ b < a + 150) 0 [100, 200] ∧
      debounceFires [0, 100, 200] = [350]) := by
  refine ⟨burst_chain_0_100_200, ?_⟩
  exact mutation_burst_single_eval 0 [100, 200] burst_chain_0_100_200

